import Mathlib

set_option linter.unusedVariables false

/-!
Verification of the per-node coordination engine of a distributed cluster
node (Ricart-Agrawala mutual exclusion plus a bully election), shallowly
embedded from the Python source in src/src/node.py.  Python sets are
modelled as duplicate-free lists (add inserts only when absent, discard
filters), Python ints as Lean Int for the Lamport clock and timestamps,
node ids as Nat.  Outbound network activity is recorded as a list of
Attempt records: one record per message the node actually tries to put on
the wire (send_message past its guards); the Bool ok parameters model
whether the transmission succeeded after the retry, driving the
mark-as-dead failure path.
-/

/-- Protocol message kinds, from class MessageType in node.py. -/
inductive MessageType where
  | REQUEST
  | REPLY
  | ELECTION
  | ANSWER
  | COORDINATOR
  | HEARTBEAT
  deriving DecidableEq, Repr

/-- Mutex states, from class NodeState in node.py. -/
inductive NodeState where
  | RELEASED
  | WANTED
  | HELD
  deriving DecidableEq, Repr

/-- Control position of the (single) request_critical_section thread:
idle = no episode running; started = after the atomic RELEASED to WANTED
block; waiting = after the REQUEST broadcast, blocked on the reply event;
timedout = after the timeout marking block; critical = between the HELD
transition and exit_critical_section. -/
inductive ReqPhase where
  | idle
  | started
  | waiting
  | timedout
  | critical
  deriving DecidableEq, Repr

/-- One outbound transmission attempt: the peer id it is addressed to and
the message type.  Emitted exactly when send_message reaches its I/O
section (target in the peer table, heartbeat suppression not triggered). -/
structure Attempt where
  target : Nat
  type : MessageType
  deriving DecidableEq, Repr

/-- The mutable per-node state of DistributedNode, restricted to the
fields the coordination logic reads and writes.  expected0 is the
episode-local boolean expected_replies == 0 captured by the requesting
thread inside the first locked block. -/
structure Node where
  node_id : Nat
  peers : List Nat
  lamport_clock : Int
  state : NodeState
  deferred_replies : List Nat
  replies_received : List Nat
  request_clock : Int
  received_replies_event : Bool
  coordinator_id : Option Nat
  in_progress : Bool
  received_answer : Bool
  dead_nodes : List Nat
  pc : ReqPhase
  expected0 : Bool
  deriving DecidableEq, Repr

/-- ThreadSafeSet.add: insert an id if it is not already present. -/
def set_add (l : List Nat) (x : Nat) : List Nat :=
  if x ∈ l then l else l ++ [x]

/-- ThreadSafeSet.discard: remove an id. -/
def set_discard (l : List Nat) (x : Nat) : List Nat :=
  l.filter (fun y => y != x)

/-- tick: increment the Lamport clock by one and return the new value. -/
def tick (n : Node) : Node × Int :=
  let n1 : Node := { n with lamport_clock := n.lamport_clock + 1 }
  (n1, n1.lamport_clock)

/-- update_clock: set the clock to max(clock, received_time) + 1. -/
def update_clock (n : Node) (received_time : Int) : Node :=
  { n with lamport_clock := max n.lamport_clock received_time + 1 }

/-- expected_replies: max(0, len(peers) - 1 - len(dead_nodes)). -/
def expected_replies (n : Node) : Int :=
  max 0 ((n.peers.length : Int) - 1 - (n.dead_nodes.length : Int))

/-- maybe_signal_replies_complete: set the reply event when the count of
received replies has reached the expected threshold. -/
def maybe_signal_replies_complete (n : Node) : Node :=
  if (n.replies_received.length : Int) ≥ expected_replies n then
    { n with received_replies_event := true }
  else n

/-- send_message: drop silently when the target is not a peer; suppress
heartbeats to dead peers; otherwise build the frame with a tick and try to
transmit.  On failure (ok = false) after the retry, a target not already
dead is marked dead and, when the mutex state is WANTED, the reply
threshold is re-checked.  The attempt record is emitted whenever the I/O
section is reached, succeed or fail. -/
def send_message (n : Node) (target : Nat) (ty : MessageType) (ok : Bool) :
    Node × List Attempt :=
  if target ∉ n.peers then (n, [])
  else if ty = MessageType.HEARTBEAT ∧ target ∈ n.dead_nodes then (n, [])
  else
    let n1 := (tick n).1
    if ok then (n1, [⟨target, ty⟩])
    else if target ∈ n1.dead_nodes then (n1, [⟨target, ty⟩])
    else
      let n2 := { n1 with dead_nodes := set_add n1.dead_nodes target }
      let n3 := if n2.state = NodeState.WANTED
                then maybe_signal_replies_complete n2 else n2
      (n3, [⟨target, ty⟩])

/-- A for-loop of send_message over a list of targets, one ok flag per
target (missing flags default to success). -/
def send_to_each (n : Node) (targets : List Nat) (ty : MessageType)
    (oks : List Bool) : Node × List Attempt :=
  match targets with
  | [] => (n, [])
  | t :: ts =>
    let r1 := send_message n t ty (oks.headD true)
    let r2 := send_to_each r1.1 ts ty oks.tail
    (r2.1, r1.2 ++ r2.2)

/-- The deferral condition of handle_request, exactly as the source
computes it: my_priority_higher = state == HELD or (state == WANTED and
(request_clock < sender_clock or (request_clock == sender_clock and
node_id < sender))). -/
def my_priority_higher (n : Node) (sender : Nat) (sender_clock : Int) : Prop :=
  n.state = NodeState.HELD ∨
    (n.state = NodeState.WANTED ∧
      (n.request_clock < sender_clock ∨
        (n.request_clock = sender_clock ∧ n.node_id < sender)))

instance (n : Node) (s : Nat) (c : Int) : Decidable (my_priority_higher n s c) := by
  unfold my_priority_higher; infer_instance

/-- Strict lexicographic order on (clock, id) pairs, following the words
of the specification: (request_clock, node_id) < (t, sender). -/
def lexSmaller (p q : Int × Nat) : Prop :=
  p.1 < q.1 ∨ (p.1 = q.1 ∧ p.2 < q.2)

/-- handle_request: defer (append the sender to deferred_replies) when
this node has priority, otherwise send a REPLY to the sender. -/
def handle_request (n : Node) (sender : Nat) (sender_clock : Int) (ok : Bool) :
    Node × List Attempt :=
  if my_priority_higher n sender sender_clock then
    ({ n with deferred_replies := n.deferred_replies ++ [sender] }, [])
  else
    send_message n sender MessageType.REPLY ok

/-- handle_reply: record the sender and re-check the reply threshold. -/
def handle_reply (n : Node) (sender : Nat) : Node :=
  maybe_signal_replies_complete
    { n with replies_received := set_add n.replies_received sender }

/-- handle_answer: record that an ANSWER arrived for the current round. -/
def handle_answer (n : Node) (sender : Nat) : Node :=
  { n with received_answer := true }

/-- handle_coordinator: clear in_progress, refresh the heartbeat time, and
install the sender as coordinator when the identity changed. -/
def handle_coordinator (n : Node) (sender : Nat) : Node :=
  let n1 : Node := { n with in_progress := false }
  if n1.coordinator_id = some sender then n1
  else { n1 with coordinator_id := some sender }

/-- handle_heartbeat: refresh when the sender is the believed coordinator;
adopt the sender when no coordinator is known. -/
def handle_heartbeat (n : Node) (sender : Nat) : Node :=
  if n.coordinator_id = some sender then n
  else if n.coordinator_id = none then { n with coordinator_id := some sender }
  else n

/-- become_coordinator: install self, clear in_progress, log (one tick)
and broadcast COORDINATOR to every other peer. -/
def become_coordinator (n : Node) (oks : List Bool) : Node × List Attempt :=
  let n1 : Node := { n with coordinator_id := some n.node_id, in_progress := false }
  let n2 := (tick n1).1
  send_to_each n2 (n2.peers.filter (fun p => p != n2.node_id))
    MessageType.COORDINATOR oks

/-- start_election: no-op while a round is in progress; otherwise open a
round (in_progress true, received_answer false, one log tick), and either
become coordinator at once (no live higher-id peer) or send ELECTION to
every live higher-id peer. -/
def start_election (n : Node) (oks : List Bool) : Node × List Attempt :=
  if n.in_progress then (n, [])
  else
    let n1 : Node := { n with in_progress := true, received_answer := false }
    let n2 := (tick n1).1
    let higher := n2.peers.filter
      (fun p => decide (n2.node_id < p) && !(n2.dead_nodes.contains p))
    if higher = [] then become_coordinator n2 oks
    else send_to_each n2 higher MessageType.ELECTION oks

/-- handle_election: a node that already believes itself coordinator
answers with a single COORDINATOR frame and returns; any other node sends
ANSWER and, when no round is in progress, starts one. -/
def handle_election (n : Node) (sender : Nat) (ok : Bool) (oks : List Bool) :
    Node × List Attempt :=
  if n.coordinator_id = some n.node_id then
    send_message n sender MessageType.COORDINATOR ok
  else
    let r1 := send_message n sender MessageType.ANSWER ok
    if r1.1.in_progress then (r1.1, r1.2)
    else
      let r2 := start_election r1.1 oks
      (r2.1, r1.2 ++ r2.2)

/-- The first deadline of wait_for_election_result: nothing when the round
already resolved; nothing yet when an ANSWER arrived (the thread sleeps a
second timeout); become coordinator when no ANSWER arrived. -/
def election_deadline_first (n : Node) (oks : List Bool) : Node × List Attempt :=
  if n.in_progress = false then (n, [])
  else if n.received_answer = true then (n, [])
  else become_coordinator n oks

/-- The second deadline of wait_for_election_result, reached when an
ANSWER had arrived: when the round is still unresolved, restart it by
clearing in_progress and calling start_election. -/
def election_deadline_second (n : Node) (oks : List Bool) : Node × List Attempt :=
  if n.in_progress = true then
    start_election { n with in_progress := false } oks
  else (n, [])

/-- exit_critical_section: transition to RELEASED, send one REPLY per
entry of deferred_replies in list order, then clear the list. -/
def exit_critical_section (n : Node) (oks : List Bool) : Node × List Attempt :=
  let n1 : Node := { n with state := NodeState.RELEASED }
  let r := send_to_each n1 n1.deferred_replies MessageType.REPLY oks
  ({ r.1 with deferred_replies := [], pc := ReqPhase.idle }, r.2)

/-- The first locked block of request_critical_section: RELEASED to
WANTED, request_clock captured from a tick, reply accounting cleared, and
the expected_replies == 0 test captured into the thread-local flag. -/
def request_cs_begin (n : Node) : Node :=
  let r := tick n
  let n2 : Node := { r.1 with
    state := NodeState.WANTED, request_clock := r.2,
    replies_received := [], received_replies_event := false }
  { n2 with pc := ReqPhase.started, expected0 := decide (expected_replies n2 = 0) }

/-- The REQUEST broadcast of request_critical_section: one REQUEST to
every peer that is not self and not in the dead snapshot. -/
def request_cs_sends (n : Node) (oks : List Bool) : Node × List Attempt :=
  let targets := n.peers.filter
    (fun p => p != n.node_id && !(n.dead_nodes.contains p))
  let r := send_to_each n targets MessageType.REQUEST oks
  ({ r.1 with pc := ReqPhase.waiting }, r.2)

/-- The locked HELD transition at the top of enter_critical_section; the
simulated workload that follows performs no network activity. -/
def enter_critical_section_begin (n : Node) : Node :=
  { n with state := NodeState.HELD, pc := ReqPhase.critical }

/-- The timeout block of request_critical_section: peers that are not
self, have not replied and are not already dead are marked dead, and when
that set is non-empty the reply threshold is re-checked. -/
def request_cs_timeout_mark (n : Node) : Node :=
  let missing := n.peers.filter
    (fun p => p != n.node_id && !(n.replies_received.contains p)
      && !(n.dead_nodes.contains p))
  let n1 := if missing = [] then n
    else maybe_signal_replies_complete
      { n with dead_nodes := missing.foldl set_add n.dead_nodes }
  { n1 with pc := ReqPhase.timedout }

/-- The abort tail of request_critical_section after MUTEX_FAIL: the state
is set back to RELEASED and nothing else is touched. -/
def request_cs_abort (n : Node) : Node :=
  { n with state := NodeState.RELEASED, pc := ReqPhase.idle }

/-- process_message up to the handler: receipt revives the sender in the
failure detector, the clock absorbs the frame timestamp, then the frame is
dispatched on its type. -/
def recv_dispatch (n : Node) (sender : Nat) (ty : MessageType) (t : Int)
    (ok : Bool) (oks : List Bool) : Node × List Attempt :=
  let n0 := update_clock { n with dead_nodes := set_discard n.dead_nodes sender } t
  match ty with
  | MessageType.REQUEST => handle_request n0 sender t ok
  | MessageType.REPLY => (handle_reply n0 sender, [])
  | MessageType.ELECTION => handle_election n0 sender ok oks
  | MessageType.ANSWER => (handle_answer n0 sender, [])
  | MessageType.COORDINATOR => (handle_coordinator n0 sender, [])
  | MessageType.HEARTBEAT => (handle_heartbeat n0 sender, [])

/-- The heartbeat-watchdog firing in run_heartbeat_loop: the silent
coordinator is marked dead, forgotten, and an election is started. -/
def watchdog_fire (n : Node) (c : Nat) (oks : List Bool) : Node × List Attempt :=
  let n1 : Node := { n with
    dead_nodes := set_add n.dead_nodes c, coordinator_id := none }
  start_election n1 oks

/-- The heartbeat broadcast a coordinator performs each loop tick. -/
def heartbeat_broadcast (n : Node) (oks : List Bool) : Node × List Attempt :=
  send_to_each n (n.peers.filter (fun p => p != n.node_id))
    MessageType.HEARTBEAT oks

/-- The fresh state DistributedNode.init builds. -/
def initNode (id : Nat) (peers : List Nat) : Node :=
  { node_id := id, peers := peers, lamport_clock := 0,
    state := NodeState.RELEASED, deferred_replies := [],
    replies_received := [], request_clock := 0,
    received_replies_event := false, coordinator_id := none,
    in_progress := false, received_answer := false, dead_nodes := [],
    pc := ReqPhase.idle, expected0 := false }

/-- One interleaving step of a single node.  Inbound frames carry a sender
drawn from the peer table and distinct from this node (frames originate
from the other cluster members); every guard mirrors the condition the
corresponding code path tests. -/
inductive Step : Node → Node → Prop where
  | recv (n : Node) (sender : Nat) (ty : MessageType) (t : Int)
      (ok : Bool) (oks : List Bool)
      (hs : sender ∈ n.peers) (hne : sender ≠ n.node_id) :
      Step n (recv_dispatch n sender ty t ok oks).1
  | reqBegin (n : Node) (h1 : n.state = NodeState.RELEASED)
      (h2 : n.pc = ReqPhase.idle) :
      Step n (request_cs_begin n)
  | reqEnterDirect (n : Node) (h1 : n.pc = ReqPhase.started)
      (h2 : n.expected0 = true) :
      Step n (enter_critical_section_begin n)
  | reqSends (n : Node) (oks : List Bool) (h1 : n.pc = ReqPhase.started)
      (h2 : n.expected0 = false) :
      Step n (request_cs_sends n oks).1
  | reqWaitSuccess (n : Node) (h1 : n.pc = ReqPhase.waiting)
      (h2 : n.received_replies_event = true) :
      Step n (enter_critical_section_begin n)
  | reqTimeout (n : Node) (h1 : n.pc = ReqPhase.waiting)
      (h2 : n.received_replies_event = false) :
      Step n (request_cs_timeout_mark n)
  | reqTimeoutEnter (n : Node) (h1 : n.pc = ReqPhase.timedout)
      (h2 : n.received_replies_event = true) :
      Step n (enter_critical_section_begin n)
  | reqTimeoutAbort (n : Node) (h1 : n.pc = ReqPhase.timedout)
      (h2 : n.received_replies_event = false) :
      Step n (request_cs_abort n)
  | reqExit (n : Node) (oks : List Bool) (h1 : n.pc = ReqPhase.critical) :
      Step n (exit_critical_section n oks).1
  | elect (n : Node) (oks : List Bool) :
      Step n (start_election n oks).1
  | electDeadline1 (n : Node) (oks : List Bool) :
      Step n (election_deadline_first n oks).1
  | electDeadline2 (n : Node) (oks : List Bool)
      (h : n.received_answer = true) :
      Step n (election_deadline_second n oks).1
  | watchdog (n : Node) (c : Nat) (oks : List Bool)
      (hc : n.coordinator_id = some c) (hne : c ≠ n.node_id) :
      Step n (watchdog_fire n c oks).1
  | hb (n : Node) (oks : List Bool)
      (hc : n.coordinator_id = some n.node_id) :
      Step n (heartbeat_broadcast n oks).1

/-- States a node with the given identity and peer table can reach. -/
def Reachable (id : Nat) (peers : List Nat) (n : Node) : Prop :=
  Relation.ReflTransGen Step (initNode id peers) n

/-! ### Frame lemmas about the messaging layer -/

/-- send_message touches only the Lamport clock, the dead set and the
reply event; every other field is preserved. -/
theorem send_message_frame (n : Node) (t : Nat) (ty : MessageType) (ok : Bool) :
    (send_message n t ty ok).1.node_id = n.node_id ∧
    (send_message n t ty ok).1.peers = n.peers ∧
    (send_message n t ty ok).1.state = n.state ∧
    (send_message n t ty ok).1.deferred_replies = n.deferred_replies ∧
    (send_message n t ty ok).1.replies_received = n.replies_received ∧
    (send_message n t ty ok).1.request_clock = n.request_clock ∧
    (send_message n t ty ok).1.coordinator_id = n.coordinator_id ∧
    (send_message n t ty ok).1.in_progress = n.in_progress ∧
    (send_message n t ty ok).1.received_answer = n.received_answer ∧
    (send_message n t ty ok).1.pc = n.pc ∧
    (send_message n t ty ok).1.expected0 = n.expected0 := by
  simp only [send_message, tick, maybe_signal_replies_complete]
  split_ifs <;> simp

/-- send_to_each likewise preserves every field other than the clock, the
dead set and the reply event. -/
theorem send_to_each_frame (ts : List Nat) (n : Node) (ty : MessageType)
    (oks : List Bool) :
    (send_to_each n ts ty oks).1.node_id = n.node_id ∧
    (send_to_each n ts ty oks).1.peers = n.peers ∧
    (send_to_each n ts ty oks).1.state = n.state ∧
    (send_to_each n ts ty oks).1.deferred_replies = n.deferred_replies ∧
    (send_to_each n ts ty oks).1.coordinator_id = n.coordinator_id ∧
    (send_to_each n ts ty oks).1.in_progress = n.in_progress ∧
    (send_to_each n ts ty oks).1.received_answer = n.received_answer ∧
    (send_to_each n ts ty oks).1.pc = n.pc := by
  induction ts generalizing n oks with
  | nil => exact ⟨rfl, rfl, rfl, rfl, rfl, rfl, rfl, rfl⟩
  | cons a as ih =>
    obtain ⟨a1, a2, a3, a4, _, _, a7, a8, a9, a10, _⟩ :=
      send_message_frame n a ty (oks.headD true)
    obtain ⟨b1, b2, b3, b4, b5, b6, b7, b8⟩ :=
      ih (send_message n a ty (oks.headD true)).1 oks.tail
    exact ⟨b1.trans a1, b2.trans a2, b3.trans a3, b4.trans a4,
      b5.trans a7, b6.trans a8, b7.trans a9, b8.trans a10⟩

/-- send_message emits exactly one attempt addressed to the target when
the target is a peer and the heartbeat suppression does not apply. -/
theorem send_message_attempts (n : Node) (t : Nat) (ty : MessageType)
    (ok : Bool) (ht : t ∈ n.peers) (hty : ty ≠ MessageType.HEARTBEAT) :
    (send_message n t ty ok).2 = [⟨t, ty⟩] := by
  simp only [send_message, tick, maybe_signal_replies_complete]
  split_ifs <;> simp_all

/-! ### Claim C1: inbound REQUEST deferral rule -/

/-- C1: an inbound REQUEST(sender, t) is deferred (the sender is appended
to deferred_replies) exactly when state = HELD, or state = WANTED and the
local pair (request_clock, node_id) is lexicographically smaller than
(t, sender); in every other case a single REPLY attempt addressed to the
sender is produced.  With request_clock = t the node with the lower id
wins, since the lexicographic tie-break compares the ids. -/
theorem handle_request_defer_iff_lex (n : Node) (sender : Nat) (t : Int)
    (ok : Bool) (hs : sender ∈ n.peers) :
    (my_priority_higher n sender t ↔
      n.state = NodeState.HELD ∨
        (n.state = NodeState.WANTED ∧
          lexSmaller (n.request_clock, n.node_id) (t, sender))) ∧
    (handle_request n sender t ok).1.deferred_replies =
      (if my_priority_higher n sender t
        then n.deferred_replies ++ [sender] else n.deferred_replies) ∧
    (handle_request n sender t ok).2 =
      (if my_priority_higher n sender t then ([] : List Attempt)
        else [⟨sender, MessageType.REPLY⟩]) := by
  refine ⟨Iff.rfl, ?_, ?_⟩ <;> unfold handle_request <;> split_ifs with h
  · rfl
  · exact (send_message_frame n sender MessageType.REPLY ok).2.2.2.1
  · rfl
  · exact send_message_attempts n sender MessageType.REPLY ok hs (by simp)

/-- Closed instance of C1: a RELEASED node answers a REQUEST from peer 2
with a single REPLY attempt. -/
theorem handle_request_defer_iff_lex_witness :
    (handle_request (initNode 1 [1, 2]) 2 (5 : Int) true).2 =
      [⟨2, MessageType.REPLY⟩] := by
  have h := handle_request_defer_iff_lex (initNode 1 [1, 2]) 2 5 true (by decide)
  rw [h.2.2]
  decide

/-! ### Claim C8: Lamport clock operations -/

/-- C8: tick stores and returns the post-increment value c + 1, and
update_clock stores max(c, t) + 1; both strictly increase the clock, and
from a non-negative clock both results stay non-negative. -/
theorem lamport_clock_tick_update (n : Node) (t : Int) :
    (tick n).2 = n.lamport_clock + 1 ∧
    (tick n).1.lamport_clock = n.lamport_clock + 1 ∧
    (update_clock n t).lamport_clock = max n.lamport_clock t + 1 ∧
    n.lamport_clock < (tick n).2 ∧
    n.lamport_clock < (update_clock n t).lamport_clock ∧
    (0 ≤ n.lamport_clock →
      0 ≤ (tick n).1.lamport_clock ∧ 0 ≤ (update_clock n t).lamport_clock) := by
  refine ⟨rfl, rfl, rfl, ?_, ?_, fun h => ⟨?_, ?_⟩⟩ <;>
    simp [tick, update_clock] <;> omega

/-- Closed instance of C8 at the initial clock 0 and timestamp 5. -/
theorem lamport_clock_tick_update_witness :
    0 ≤ (tick (initNode 1 [1])).1.lamport_clock ∧
    0 ≤ (update_clock (initNode 1 [1]) 5).lamport_clock :=
  (lamport_clock_tick_update (initNode 1 [1]) 5).2.2.2.2.2 (by decide)

/-! ### Claim C10: expected_replies is clamped at zero -/

/-- C10: expected_replies never goes below zero; once dead_nodes holds at
least len(peers) - 1 entries it is exactly zero, and the reply-complete
signal then fires even on an empty replies_received set. -/
theorem expected_replies_clamped (n : Node) :
    0 ≤ expected_replies n ∧
    ((n.peers.length : Int) - 1 ≤ (n.dead_nodes.length : Int) →
      expected_replies n = 0) ∧
    (expected_replies n = 0 →
      (maybe_signal_replies_complete
        { n with replies_received := [] }).received_replies_event = true) := by
  refine ⟨le_max_left 0 _, fun h => ?_, fun h => ?_⟩
  · unfold expected_replies
    omega
  · have he : expected_replies { n with replies_received := ([] : List Nat) }
        = expected_replies n := rfl
    unfold maybe_signal_replies_complete
    rw [he, h]
    simp

/-- Closed instance of C10: a two-peer node whose only other peer is dead
has a zero threshold, and the signal fires on an empty reply set. -/
theorem expected_replies_clamped_witness :
    (maybe_signal_replies_complete
      { { initNode 1 [1, 2] with dead_nodes := [2] }
          with replies_received := [] }).received_replies_event = true :=
  (expected_replies_clamped
    { initNode 1 [1, 2] with dead_nodes := [2] }).2.2 (by decide)

/-! ### Claim C9: length-prefixed framing round-trip -/

/-- The 4-byte big-endian length header struct.pack produces for a u32. -/
def beBytes4 (len : Nat) : List Nat :=
  [len / 16777216 % 256, len / 65536 % 256, len / 256 % 256, len % 256]

/-- The value struct.unpack reads back from a 4-byte header. -/
def beVal4 (hdr : List Nat) : Nat :=
  match hdr with
  | [b0, b1, b2, b3] => ((b0 * 256 + b1) * 256 + b2) * 256 + b3
  | _ => 0

/-- send_bytes: the wire frame is the 4-byte big-endian length of the
payload followed by the payload bytes. -/
def encodeFrame (b : List Nat) : List Nat := beBytes4 b.length ++ b

/-- The read side of handle_client_connection: recv_exact 4 header bytes,
unpack the length, recv_exact that many payload bytes; None when the
stream is shorter than announced. -/
def decodeFrame (s : List Nat) : Option (List Nat) :=
  if s.length < 4 then none
  else
    let len := beVal4 (s.take 4)
    let body := (s.drop 4).take len
    if body.length < len then none else some body

/-- Unpacking the packed header recovers any length below 2 ^ 32. -/
theorem beVal4_beBytes4 (L : Nat) (h : L < 4294967296) :
    beVal4 (beBytes4 L) = L := by
  simp only [beVal4, beBytes4]
  omega

/-- C9: for every byte string of length below 2 ^ 32, decoding the frame
produced by encoding it yields exactly the original byte string. -/
theorem frame_roundtrip (b : List Nat) (h : b.length < 4294967296) :
    decodeFrame (encodeFrame b) = some b := by
  have h4 : (beBytes4 b.length).length = 4 := rfl
  have hlen : (encodeFrame b).length = 4 + b.length := by
    simp [encodeFrame, beBytes4]
    omega
  have htake : (encodeFrame b).take 4 = beBytes4 b.length :=
    List.take_left' h4
  have hdrop : (encodeFrame b).drop 4 = b :=
    List.drop_left' h4
  unfold decodeFrame
  rw [hlen, htake, hdrop, beVal4_beBytes4 b.length h]
  simp

/-- Closed instance of C9 on a concrete three-byte payload. -/
theorem frame_roundtrip_witness :
    decodeFrame (encodeFrame [10, 20, 30]) = some [10, 20, 30] :=
  frame_roundtrip [10, 20, 30] (by decide)

/-! ### Claim C4: election deadlines and ANSWER handling -/

/-- become_coordinator installs this node as coordinator and closes the
round, whatever the broadcast outcomes are. -/
theorem become_coordinator_fields (n : Node) (oks : List Bool) :
    (become_coordinator n oks).1.coordinator_id = some n.node_id ∧
    (become_coordinator n oks).1.in_progress = false := by
  refine ⟨?_, ?_⟩
  · exact ((send_to_each_frame _ _ _ _).2.2.2.2.1).trans rfl
  · exact ((send_to_each_frame _ _ _ _).2.2.2.2.2.1).trans rfl

/-- C4: at the first election deadline the node becomes coordinator
exactly when no ANSWER arrived during the round; with an ANSWER recorded
it does nothing yet (it waits one more timeout for a COORDINATOR frame),
and at that second deadline, when the round is still unresolved, it
restarts the round by clearing in_progress and calling start_election.
handle_answer sets received_answer to true and changes nothing else. -/
theorem election_deadline_behavior (n : Node) (s : Nat) (oks : List Bool) :
    (n.in_progress = true → n.received_answer = false →
      election_deadline_first n oks = become_coordinator n oks ∧
      (become_coordinator n oks).1.coordinator_id = some n.node_id ∧
      (become_coordinator n oks).1.in_progress = false) ∧
    (n.in_progress = true → n.received_answer = true →
      election_deadline_first n oks = (n, [])) ∧
    (n.in_progress = false → election_deadline_first n oks = (n, [])) ∧
    (n.in_progress = true →
      election_deadline_second n oks =
        start_election { n with in_progress := false } oks) ∧
    handle_answer n s = { n with received_answer := true } := by
  refine ⟨fun h1 h2 => ⟨?_, (become_coordinator_fields n oks).1,
      (become_coordinator_fields n oks).2⟩,
    fun h1 h2 => ?_, fun h1 => ?_, fun h1 => ?_, rfl⟩
  · simp [election_deadline_first, h1, h2]
  · simp [election_deadline_first, h1, h2]
  · simp [election_deadline_first, h1]
  · simp [election_deadline_second, h1]

/-- Concrete node for the C4 witness: an open round with no ANSWER yet. -/
def electionRoundNode : Node :=
  { initNode 1 [1, 2] with in_progress := true }

/-- Closed instance of C4: with an open round and no ANSWER the first
deadline runs become_coordinator, and the second deadline restarts the
round when it fires with the round still open. -/
theorem election_deadline_behavior_witness :
    election_deadline_first electionRoundNode [true] =
      become_coordinator electionRoundNode [true] ∧
    election_deadline_second electionRoundNode [true] =
      start_election { electionRoundNode with in_progress := false } [true] :=
  ⟨((election_deadline_behavior electionRoundNode 2 [true]).1 rfl rfl).1,
    (election_deadline_behavior electionRoundNode 2 [true]).2.2.2.1 rfl⟩

/-! ### Reachable traces used by the counterexamples -/

/-- Node 1 of a three-node cluster hears a heartbeat from node 3 and
adopts it as coordinator. -/
def trcA1 : Node :=
  (recv_dispatch (initNode 1 [1, 2, 3]) 3 MessageType.HEARTBEAT 0 true []).1

/-- Node 1 opens a mutex episode: RELEASED to WANTED. -/
def trcA2 : Node := request_cs_begin trcA1

/-- The REQUEST broadcast to peers 2 and 3 goes out successfully. -/
def trcA3 : Node := (request_cs_sends trcA2 [true, true]).1

/-- A competing REQUEST from node 2 with the larger timestamp 5 arrives
and is deferred (the local request has priority). -/
def trcA4 : Node := (recv_dispatch trcA3 2 MessageType.REQUEST 5 true []).1

/-- Node 2 also replies; one of two expected replies is in, so the reply
event stays unset. -/
def trcA5 : Node := (recv_dispatch trcA4 2 MessageType.REPLY 0 true []).1

/-- The heartbeat watchdog declares coordinator 3 dead (no mutex signal
re-check happens on this path) and starts an election, whose ELECTION
frame to node 2 is transmitted. -/
def trcA6 : Node := (watchdog_fire trcA5 3 [true]).1

/-- The mutex timeout fires: every non-replying peer is already dead, so
the missing set is empty and the reply event is never re-checked. -/
def trcA7 : Node := request_cs_timeout_mark trcA6

/-- The episode aborts with MUTEX_FAIL: back to RELEASED with node 2
still queued in deferred_replies. -/
def trcA8 : Node := request_cs_abort trcA7

/-- The first election deadline fires with no ANSWER: node 1 becomes
coordinator; both COORDINATOR broadcasts fail, so node 2 joins node 3 in
dead_nodes while deferred_replies still holds node 2. -/
def trcA9 : Node := (election_deadline_first trcA8 [false, false]).1

/-- The abort state trcA8 is reachable for node 1 of cluster [1, 2, 3]. -/
theorem reachable_trcA8 : Reachable 1 [1, 2, 3] trcA8 :=
  Relation.ReflTransGen.tail
    (Relation.ReflTransGen.tail
      (Relation.ReflTransGen.tail
        (Relation.ReflTransGen.tail
          (Relation.ReflTransGen.tail
            (Relation.ReflTransGen.tail
              (Relation.ReflTransGen.tail
                (Relation.ReflTransGen.tail
                  (Relation.ReflTransGen.refl)
                  (Step.recv (initNode 1 [1, 2, 3]) 3 MessageType.HEARTBEAT 0
                    true [] (by decide) (by decide)))
                (Step.reqBegin trcA1 (by decide) (by decide)))
              (Step.reqSends trcA2 [true, true] (by decide) (by decide)))
            (Step.recv trcA3 2 MessageType.REQUEST 5 true [] (by decide)
              (by decide)))
          (Step.recv trcA4 2 MessageType.REPLY 0 true [] (by decide)
            (by decide)))
        (Step.watchdog trcA5 3 [true] (by decide) (by decide)))
      (Step.reqTimeout trcA6 (by decide) (by decide)))
    (Step.reqTimeoutAbort trcA7 (by decide) (by decide))

/-- One more step reaches trcA9. -/
theorem reachable_trcA9 : Reachable 1 [1, 2, 3] trcA9 :=
  Relation.ReflTransGen.tail reachable_trcA8
    (Step.electDeadline1 trcA8 [false, false])

/-- Node 1 of a two-node cluster opens a mutex episode. -/
def trcB1 : Node := request_cs_begin (initNode 1 [1, 2])

/-- The REQUEST to peer 2 is transmitted. -/
def trcB2 : Node := (request_cs_sends trcB1 [true]).1

/-- The REPLY from node 2 arrives and meets the threshold of one. -/
def trcB3 : Node := (recv_dispatch trcB2 2 MessageType.REPLY 0 true []).1

/-- Node 1 enters the critical section. -/
def trcB4 : Node := enter_critical_section_begin trcB3

/-- A REQUEST from node 2 arrives while HELD and is deferred. -/
def trcB5 : Node := (recv_dispatch trcB4 2 MessageType.REQUEST 10 true []).1

/-- Node 2 re-requests (its own episode timed out); the second REQUEST is
deferred as well, so deferred_replies now holds node 2 twice. -/
def trcB6 : Node := (recv_dispatch trcB5 2 MessageType.REQUEST 11 true []).1

/-- The duplicate-deferral state trcB6 is reachable for node 1 of the
cluster [1, 2]. -/
theorem reachable_trcB6 : Reachable 1 [1, 2] trcB6 :=
  Relation.ReflTransGen.tail
    (Relation.ReflTransGen.tail
      (Relation.ReflTransGen.tail
        (Relation.ReflTransGen.tail
          (Relation.ReflTransGen.tail
            (Relation.ReflTransGen.tail
              (Relation.ReflTransGen.refl)
              (Step.reqBegin (initNode 1 [1, 2]) (by decide) (by decide)))
            (Step.reqSends trcB1 [true] (by decide) (by decide)))
          (Step.recv trcB2 2 MessageType.REPLY 0 true [] (by decide)
            (by decide)))
        (Step.reqWaitSuccess trcB3 (by decide) (by decide)))
      (Step.recv trcB4 2 MessageType.REQUEST 10 true [] (by decide)
        (by decide)))
    (Step.recv trcB5 2 MessageType.REQUEST 11 true [] (by decide)
      (by decide))

/-- Node 3 of a three-node cluster elects itself (no higher id exists). -/
def trcC1 : Node := (start_election (initNode 3 [1, 2, 3]) [true, true]).1

/-- The self-coordinator state trcC1 is reachable for node 3. -/
theorem reachable_trcC1 : Reachable 3 [1, 2, 3] trcC1 :=
  Relation.ReflTransGen.tail
    (Relation.ReflTransGen.refl)
    (Step.elect (initNode 3 [1, 2, 3]) [true, true])

/-! ### Claim C2: draining the deferral queue -/

/-- Counterexample to C2 as stated: deferred_replies is a plain list, not
an ordered set.  In the reachable state trcB6 the same REQUEST sender was
handled twice during one HELD episode, deferred_replies holds the
duplicate [2, 2], and the exit step consequently addresses two REPLY
attempts to node 2 in this episode. -/
theorem deferred_duplicates_counterexample :
    Reachable 1 [1, 2] trcB6 ∧
    trcB6.state = NodeState.HELD ∧
    trcB6.deferred_replies = [2, 2] ∧
    ¬ trcB6.deferred_replies.Nodup ∧
    (exit_critical_section trcB6 [true, true]).2 =
      [⟨2, MessageType.REPLY⟩, ⟨2, MessageType.REPLY⟩] :=
  ⟨reachable_trcB6, by decide, by decide, by decide, by decide⟩

/-- With reply transmissions the exit attempt list is literally the map
of deferred_replies to REPLY attempts, in insertion order. -/
theorem send_to_each_reply_attempts (ts : List Nat) (n : Node)
    (oks : List Bool) (hts : ∀ x ∈ ts, x ∈ n.peers) :
    (send_to_each n ts MessageType.REPLY oks).2 =
      ts.map (fun d => ⟨d, MessageType.REPLY⟩) := by
  induction ts generalizing n oks with
  | nil => rfl
  | cons a as ih =>
    have ha : a ∈ n.peers := hts a (by simp)
    have hatt := send_message_attempts n a MessageType.REPLY (oks.headD true)
      ha (by simp)
    have hpeers := (send_message_frame n a MessageType.REPLY (oks.headD true)).2.1
    have hrec := ih (send_message n a MessageType.REPLY (oks.headD true)).1
      oks.tail (fun x hx => hpeers ▸ hts x (by simp [hx]))
    show (send_message n a MessageType.REPLY (oks.headD true)).2 ++
        (send_to_each (send_message n a MessageType.REPLY (oks.headD true)).1
          as MessageType.REPLY oks.tail).2 = _
    rw [hatt, hrec]
    rfl

/-- C2 amended: on the HELD to RELEASED exit the node produces exactly one
REPLY attempt per entry of deferred_replies, in insertion order, and then
clears the queue; since the queue is a plain list that records one entry
per handled REQUEST, a peer deferred twice in one episode receives one
REPLY per occurrence (the per-peer uniqueness in the claim fails, see the
counterexample). -/
theorem exit_drains_deferred_in_order (n : Node) (oks : List Bool)
    (hd : ∀ x ∈ n.deferred_replies, x ∈ n.peers) :
    (exit_critical_section n oks).2 =
      n.deferred_replies.map (fun d => ⟨d, MessageType.REPLY⟩) ∧
    (exit_critical_section n oks).1.deferred_replies = [] ∧
    (exit_critical_section n oks).1.state = NodeState.RELEASED := by
  refine ⟨?_, rfl, ?_⟩
  · exact send_to_each_reply_attempts n.deferred_replies
      { n with state := NodeState.RELEASED } oks hd
  · exact (send_to_each_frame _ _ _ _).2.2.1

/-- Closed instance of the amended C2 on the reachable duplicate state. -/
theorem exit_drains_deferred_in_order_witness :
    (exit_critical_section trcB6 [true, true]).2 =
      trcB6.deferred_replies.map (fun d => ⟨d, MessageType.REPLY⟩) ∧
    (exit_critical_section trcB6 [true, true]).1.deferred_replies = [] ∧
    (exit_critical_section trcB6 [true, true]).1.state =
      NodeState.RELEASED :=
  exit_drains_deferred_in_order trcB6 [true, true] (by decide)

/-! ### Claim C3: deferred_replies at RELEASED -/

/-- Counterexample to C3 as stated: the timeout-abort path of
request_critical_section leaves deferred_replies untouched.  In the
reachable state trcA8 the episode has aborted (state = RELEASED, the
request thread is idle, well outside the exit step), yet deferred_replies
still holds node 2. -/
theorem released_with_deferred_counterexample :
    Reachable 1 [1, 2, 3] trcA8 ∧
    trcA8.state = NodeState.RELEASED ∧
    trcA8.pc = ReqPhase.idle ∧
    trcA8.deferred_replies = [2] :=
  ⟨reachable_trcA8, by decide, by decide, by decide⟩

/-- C3 amended: the normal exit step does leave deferred_replies empty at
RELEASED, but the timeout-abort path that emits MUTEX_FAIL transitions to
RELEASED without touching deferred_replies, so a deferral queued during
the aborted episode survives into RELEASED (it is drained only at the
next episode's exit; see the counterexample for reachability). -/
theorem abort_keeps_deferred_exit_clears (n : Node) (oks : List Bool) :
    (exit_critical_section n oks).1.deferred_replies = [] ∧
    (exit_critical_section n oks).1.state = NodeState.RELEASED ∧
    (request_cs_abort n).deferred_replies = n.deferred_replies ∧
    (request_cs_abort n).state = NodeState.RELEASED :=
  ⟨rfl, (send_to_each_frame _ _ _ _).2.2.1, rfl, rfl⟩

/-! ### Claim C5: inbound ELECTION handling -/

/-- A successful send_message to a live peer leaves just the tick and the
single attempt record. -/
theorem send_message_ok (n : Node) (t : Nat) (ty : MessageType)
    (ht : t ∈ n.peers) (hty : ty ≠ MessageType.HEARTBEAT) :
    send_message n t ty true = ((tick n).1, [⟨t, ty⟩]) := by
  simp only [send_message]
  split_ifs <;> simp_all

/-- Counterexample to C5 as stated: in the reachable state trcC1 node 3
already believes itself coordinator; an inbound ELECTION from node 1 is
answered with a single COORDINATOR frame and no ANSWER at all, while the
claim requires an ANSWER on every inbound ELECTION. -/
theorem election_no_answer_counterexample :
    Reachable 3 [1, 2, 3] trcC1 ∧
    trcC1.coordinator_id = some trcC1.node_id ∧
    (recv_dispatch trcC1 1 MessageType.ELECTION 0 true []).2 =
      [⟨1, MessageType.COORDINATOR⟩] ∧
    Attempt.mk 1 MessageType.ANSWER ∉
      (recv_dispatch trcC1 1 MessageType.ELECTION 0 true []).2 :=
  ⟨reachable_trcC1, by decide, by decide, by decide⟩

/-- C5 amended: on an inbound ELECTION(sender), a node that already
believes itself coordinator sends only a COORDINATOR frame to the sender
(no ANSWER) and handles nothing else; any other node sends an ANSWER to
the sender and, exactly when in_progress is false, additionally starts an
election round. -/
theorem handle_election_behavior (n : Node) (s : Nat) (oks : List Bool)
    (hs : s ∈ n.peers) :
    (n.coordinator_id = some n.node_id →
      (handle_election n s true oks).2 = [⟨s, MessageType.COORDINATOR⟩] ∧
      (handle_election n s true oks).1 = (tick n).1) ∧
    (n.coordinator_id ≠ some n.node_id → n.in_progress = true →
      (handle_election n s true oks).2 = [⟨s, MessageType.ANSWER⟩] ∧
      (handle_election n s true oks).1 = (tick n).1) ∧
    (n.coordinator_id ≠ some n.node_id → n.in_progress = false →
      (handle_election n s true oks).2 =
        ⟨s, MessageType.ANSWER⟩ :: (start_election (tick n).1 oks).2 ∧
      (handle_election n s true oks).1 = (start_election (tick n).1 oks).1) := by
  have hans := send_message_ok n s MessageType.ANSWER hs (by simp)
  have hcoord := send_message_ok n s MessageType.COORDINATOR hs (by simp)
  refine ⟨fun hc => ?_, fun hc hip => ?_, fun hc hip => ?_⟩
  · unfold handle_election
    rw [if_pos hc, hcoord]
    exact ⟨rfl, rfl⟩
  · unfold handle_election
    rw [if_neg hc]
    simp only [hans]
    have hip1 : ((tick n).1).in_progress = true := hip
    simp [hip1]
  · unfold handle_election
    rw [if_neg hc]
    simp only [hans]
    have hip1 : ((tick n).1).in_progress = false := hip
    simp [hip1]

/-- Closed instance of the amended C5 at the reachable self-coordinator
state trcC1. -/
theorem handle_election_behavior_witness :
    (handle_election trcC1 1 true []).2 = [⟨1, MessageType.COORDINATOR⟩] ∧
    (handle_election trcC1 1 true []).1 = (tick trcC1).1 :=
  (handle_election_behavior trcC1 1 [] (by decide)).1 (by decide)

/-! ### Claim C7: zero expected replies -/

/-- The code path of request_critical_section when the captured
expected_replies is zero: the begin block, the direct HELD transition, the
local workload, then exit_critical_section. -/
def request_cs_direct (n : Node) (oks : List Bool) : Node × List Attempt :=
  exit_critical_section (enter_critical_section_begin (request_cs_begin n)) oks

/-- exit_critical_section on an empty deferral queue produces no attempt. -/
theorem exit_empty_deferred (n : Node) (oks : List Bool)
    (h : n.deferred_replies = []) :
    (exit_critical_section n oks).2 = [] := by
  simp [exit_critical_section, send_to_each, h]

/-- Counterexample to C7 as stated: the reachable state trcA9 is RELEASED
with expected_replies = 0 (peers 2 and 3 are both dead), but an earlier
aborted episode left node 2 in deferred_replies; the Request() episode
from trcA9 therefore performs network I/O, a REPLY attempt to node 2 at
its exit step, although it sends no REQUEST. -/
theorem request_zero_expected_counterexample :
    Reachable 1 [1, 2, 3] trcA9 ∧
    trcA9.state = NodeState.RELEASED ∧
    trcA9.pc = ReqPhase.idle ∧
    expected_replies trcA9 = 0 ∧
    trcA9.deferred_replies = [2] ∧
    (request_cs_direct trcA9 [true]).2 = [⟨2, MessageType.REPLY⟩] :=
  ⟨reachable_trcA9, by decide, by decide, by decide, by decide, by decide⟩

/-- C7 amended: a Request() in state RELEASED with expected_replies = 0
captures expected0 = true, enters the critical section directly and, as
long as deferred_replies is empty at the call (which the timeout-abort
path can violate, see the counterexample), completes without producing a
single transmission attempt: no REQUEST and no other network I/O. -/
theorem request_direct_no_network_io (n : Node) (oks : List Bool)
    (h1 : n.state = NodeState.RELEASED) (h2 : expected_replies n = 0)
    (h3 : n.deferred_replies = []) :
    (request_cs_begin n).expected0 = true ∧
    (enter_critical_section_begin (request_cs_begin n)).state =
      NodeState.HELD ∧
    (request_cs_direct n oks).2 = [] ∧
    (request_cs_direct n oks).1.state = NodeState.RELEASED ∧
    (request_cs_direct n oks).1.deferred_replies = [] := by
  refine ⟨?_, rfl, ?_, ?_, rfl⟩
  · show decide (expected_replies n = 0) = true
    simp [h2]
  · exact exit_empty_deferred _ oks h3
  · exact ((send_to_each_frame _ _ _ _).2.2.1).trans rfl

/-- Closed instance of the amended C7 in a single-node cluster. -/
theorem request_direct_no_network_io_witness :
    (request_cs_direct (initNode 1 [1]) [true]).2 = [] ∧
    (request_cs_direct (initNode 1 [1]) [true]).1.state =
      NodeState.RELEASED :=
  ⟨(request_direct_no_network_io (initNode 1 [1]) [true] rfl (by decide)
      rfl).2.2.1,
    (request_direct_no_network_io (initNode 1 [1]) [true] rfl (by decide)
      rfl).2.2.2.1⟩

/-! ### Claim C6: dead_nodes stays inside peers minus self -/

/-- Every id in the list is a peer other than this node. -/
def GoodList (id : Nat) (P : List Nat) (l : List Nat) : Prop :=
  ∀ d ∈ l, d ∈ P ∧ d ≠ id

/-- The inductive invariant behind C6: identity and peer table are fixed,
dead_nodes and deferred_replies only hold peers other than self, and any
installed coordinator is a peer. -/
def GoodNode (id : Nat) (P : List Nat) (n : Node) : Prop :=
  n.node_id = id ∧ n.peers = P ∧ GoodList id P n.dead_nodes ∧
    GoodList id P n.deferred_replies ∧
    ∀ c, n.coordinator_id = some c → c ∈ P

theorem goodList_set_add {id : Nat} {P l : List Nat} {x : Nat}
    (hl : GoodList id P l) (hx : x ∈ P) (hne : x ≠ id) :
    GoodList id P (set_add l x) := by
  intro d hd
  unfold set_add at hd
  split at hd
  · exact hl d hd
  · rcases List.mem_append.1 hd with h | h
    · exact hl d h
    · simp at h
      subst h
      exact ⟨hx, hne⟩

theorem goodList_set_discard {id : Nat} {P l : List Nat} {x : Nat}
    (hl : GoodList id P l) : GoodList id P (set_discard l x) := by
  intro d hd
  exact hl d (List.mem_of_mem_filter hd)

theorem goodList_foldl_set_add {id : Nat} {P : List Nat} (ms : List Nat)
    (l : List Nat) (hl : GoodList id P l)
    (hm : ∀ m ∈ ms, m ∈ P ∧ m ≠ id) :
    GoodList id P (ms.foldl set_add l) := by
  induction ms generalizing l with
  | nil => exact hl
  | cons a as ih =>
    exact ih (set_add l a)
      (goodList_set_add hl (hm a (by simp)).1 (hm a (by simp)).2)
      (fun m hmm => hm m (by simp [hmm]))

/-- The invariant transfers along equality of the five fields it reads. -/
theorem goodNode_congr {id : Nat} {P : List Nat} {n m : Node}
    (hg : GoodNode id P n)
    (h1 : m.node_id = n.node_id) (h2 : m.peers = n.peers)
    (h3 : m.dead_nodes = n.dead_nodes)
    (h4 : m.deferred_replies = n.deferred_replies)
    (h5 : m.coordinator_id = n.coordinator_id) : GoodNode id P m := by
  obtain ⟨g1, g2, g3, g4, g5⟩ := hg
  exact ⟨h1.trans g1, h2.trans g2, h3 ▸ g3, h4 ▸ g4,
    fun c hc => g5 c (h5 ▸ hc)⟩

/-- maybe_signal_replies_complete only touches the reply event. -/
theorem maybe_signal_frame (n : Node) :
    (maybe_signal_replies_complete n).node_id = n.node_id ∧
    (maybe_signal_replies_complete n).peers = n.peers ∧
    (maybe_signal_replies_complete n).dead_nodes = n.dead_nodes ∧
    (maybe_signal_replies_complete n).deferred_replies =
      n.deferred_replies ∧
    (maybe_signal_replies_complete n).coordinator_id = n.coordinator_id := by
  unfold maybe_signal_replies_complete
  split_ifs <;> simp

/-- The dead set after send_message: unchanged, or the target (then known
to be a peer) inserted. -/
theorem send_message_dead (n : Node) (t : Nat) (ty : MessageType)
    (ok : Bool) :
    (send_message n t ty ok).1.dead_nodes = n.dead_nodes ∨
      (t ∈ n.peers ∧
        (send_message n t ty ok).1.dead_nodes = set_add n.dead_nodes t) := by
  simp only [send_message, tick, maybe_signal_replies_complete]
  split_ifs <;> simp_all

theorem good_send_message {id : Nat} {P : List Nat} (n : Node) (t : Nat)
    (ty : MessageType) (ok : Bool) (hg : GoodNode id P n) (hne : t ≠ id) :
    GoodNode id P (send_message n t ty ok).1 := by
  obtain ⟨f1, f2, _, f4, _, _, f7, _, _, _, _⟩ := send_message_frame n t ty ok
  obtain ⟨g1, g2, g3, g4, g5⟩ := hg
  refine ⟨f1.trans g1, f2.trans g2, ?_, f4 ▸ g4, fun c hc => g5 c (f7 ▸ hc)⟩
  rcases send_message_dead n t ty ok with h | ⟨htP, h⟩
  · rw [h]; exact g3
  · rw [h]; exact goodList_set_add g3 (g2 ▸ htP) hne

theorem good_send_to_each {id : Nat} {P : List Nat} (ts : List Nat)
    (n : Node) (ty : MessageType) (oks : List Bool)
    (hg : GoodNode id P n) (hts : ∀ t ∈ ts, t ≠ id) :
    GoodNode id P (send_to_each n ts ty oks).1 := by
  induction ts generalizing n oks with
  | nil => exact hg
  | cons a as ih =>
    exact ih (send_message n a ty (oks.headD true)).1 oks.tail
      (good_send_message n a ty (oks.headD true) hg (hts a (by simp)))
      (fun t ht => hts t (by simp [ht]))

theorem good_become {id : Nat} {P : List Nat} (n : Node) (oks : List Bool)
    (hid : id ∈ P) (hg : GoodNode id P n) :
    GoodNode id P (become_coordinator n oks).1 := by
  obtain ⟨g1, g2, g3, g4, g5⟩ := hg
  have hg1 : GoodNode id P
      (tick { n with coordinator_id := some n.node_id, in_progress := false }).1 := by
    refine ⟨g1, g2, g3, g4, fun c hc => ?_⟩
    simp only [tick] at hc
    have hcc : n.node_id = c := by simpa using hc
    rw [← hcc, g1]
    exact hid
  refine good_send_to_each _ _ _ _ hg1 ?_
  intro t ht
  have h := (List.mem_filter.1 ht).2
  have hne : t ≠ n.node_id := by simpa using h
  rw [g1] at hne
  exact hne

theorem good_start_election {id : Nat} {P : List Nat} (n : Node)
    (oks : List Bool) (hid : id ∈ P) (hg : GoodNode id P n) :
    GoodNode id P (start_election n oks).1 := by
  have hg2 : GoodNode id P
      (tick { n with in_progress := true, received_answer := false }).1 :=
    goodNode_congr hg rfl rfl rfl rfl rfl
  simp only [start_election]
  split_ifs with h1 h2
  · exact hg
  · exact good_become _ oks hid hg2
  · refine good_send_to_each _ _ _ _ hg2 ?_
    intro t ht
    have h := (List.mem_filter.1 ht).2
    simp at h
    have hlt : id < t := hg.1 ▸ h.1
    exact fun hc => absurd hc.symm (Nat.ne_of_lt hlt)

theorem good_handle_reply {id : Nat} {P : List Nat} (n : Node) (s : Nat)
    (hg : GoodNode id P n) : GoodNode id P (handle_reply n s) := by
  obtain ⟨m1, m2, m3, m4, m5⟩ :=
    maybe_signal_frame { n with replies_received := set_add n.replies_received s }
  exact goodNode_congr hg (m1.trans rfl) (m2.trans rfl) (m3.trans rfl)
    (m4.trans rfl) (m5.trans rfl)

theorem good_handle_coordinator {id : Nat} {P : List Nat} (n : Node)
    (s : Nat) (hg : GoodNode id P n) (hsP : s ∈ P) :
    GoodNode id P (handle_coordinator n s) := by
  obtain ⟨g1, g2, g3, g4, g5⟩ := hg
  simp only [handle_coordinator]
  split_ifs with h
  · exact ⟨g1, g2, g3, g4, fun c hc => g5 c hc⟩
  · refine ⟨g1, g2, g3, g4, fun c hc => ?_⟩
    have hsc : s = c := by simpa using hc
    rw [← hsc]
    exact hsP

theorem good_handle_heartbeat {id : Nat} {P : List Nat} (n : Node)
    (s : Nat) (hg : GoodNode id P n) (hsP : s ∈ P) :
    GoodNode id P (handle_heartbeat n s) := by
  obtain ⟨g1, g2, g3, g4, g5⟩ := hg
  unfold handle_heartbeat
  split_ifs with h1 h2
  · exact ⟨g1, g2, g3, g4, g5⟩
  · refine ⟨g1, g2, g3, g4, fun c hc => ?_⟩
    have hsc : s = c := by simpa using hc
    rw [← hsc]
    exact hsP
  · exact ⟨g1, g2, g3, g4, g5⟩

theorem good_handle_election {id : Nat} {P : List Nat} (n : Node) (s : Nat)
    (ok : Bool) (oks : List Bool) (hid : id ∈ P) (hg : GoodNode id P n)
    (hsne : s ≠ id) : GoodNode id P (handle_election n s ok oks).1 := by
  simp only [handle_election]
  split_ifs with h1 h2
  · exact good_send_message n s _ ok hg hsne
  · exact good_send_message n s _ ok hg hsne
  · exact good_start_election _ oks hid
      (good_send_message n s _ ok hg hsne)

theorem good_handle_request {id : Nat} {P : List Nat} (n : Node) (s : Nat)
    (t : Int) (ok : Bool) (hg : GoodNode id P n) (hsP : s ∈ P)
    (hsne : s ≠ id) : GoodNode id P (handle_request n s t ok).1 := by
  unfold handle_request
  split_ifs with h
  · obtain ⟨g1, g2, g3, g4, g5⟩ := hg
    refine ⟨g1, g2, g3, fun d hd => ?_, g5⟩
    rcases List.mem_append.1 hd with hmem | hmem
    · exact g4 d hmem
    · simp at hmem
      subst hmem
      exact ⟨hsP, hsne⟩
  · exact good_send_message n s _ ok hg hsne

theorem good_recv_dispatch {id : Nat} {P : List Nat} (n : Node) (s : Nat)
    (ty : MessageType) (t : Int) (ok : Bool) (oks : List Bool)
    (hid : id ∈ P) (hg : GoodNode id P n) (hsP : s ∈ P) (hsne : s ≠ id) :
    GoodNode id P (recv_dispatch n s ty t ok oks).1 := by
  have hg0 : GoodNode id P
      (update_clock { n with dead_nodes := set_discard n.dead_nodes s } t) := by
    obtain ⟨g1, g2, g3, g4, g5⟩ := hg
    exact ⟨g1, g2, goodList_set_discard g3, g4, g5⟩
  cases ty with
  | REQUEST => exact good_handle_request _ s t ok hg0 hsP hsne
  | REPLY => exact good_handle_reply _ s hg0
  | ELECTION => exact good_handle_election _ s ok oks hid hg0 hsne
  | ANSWER => exact goodNode_congr hg0 rfl rfl rfl rfl rfl
  | COORDINATOR => exact good_handle_coordinator _ s hg0 hsP
  | HEARTBEAT => exact good_handle_heartbeat _ s hg0 hsP

theorem good_request_cs_sends {id : Nat} {P : List Nat} (n : Node)
    (oks : List Bool) (hg : GoodNode id P n) :
    GoodNode id P (request_cs_sends n oks).1 := by
  have hsend : GoodNode id P
      (send_to_each n
        (n.peers.filter
          (fun p => p != n.node_id && !(n.dead_nodes.contains p)))
        MessageType.REQUEST oks).1 := by
    refine good_send_to_each _ _ _ _ hg ?_
    intro x hx
    have h := (List.mem_filter.1 hx).2
    simp at h
    exact hg.1 ▸ h.1
  exact goodNode_congr hsend rfl rfl rfl rfl rfl

theorem good_request_cs_timeout_mark {id : Nat} {P : List Nat} (n : Node)
    (hg : GoodNode id P n) :
    GoodNode id P (request_cs_timeout_mark n) := by
  obtain ⟨g1, g2, g3, g4, g5⟩ := hg
  simp only [request_cs_timeout_mark]
  split_ifs with h
  · exact ⟨g1, g2, g3, g4, g5⟩
  · have hmiss : ∀ m ∈ n.peers.filter
        (fun p => p != n.node_id && !(n.replies_received.contains p)
          && !(n.dead_nodes.contains p)), m ∈ P ∧ m ≠ id := by
      intro m hm
      have hmem := (List.mem_filter.1 hm).1
      have hcond := (List.mem_filter.1 hm).2
      simp at hcond
      exact ⟨g2 ▸ hmem, g1 ▸ hcond.1.1⟩
    obtain ⟨m1, m2, m3, m4, m5⟩ := maybe_signal_frame
      { n with dead_nodes :=
          (n.peers.filter
            (fun p => p != n.node_id && !(n.replies_received.contains p)
              && !(n.dead_nodes.contains p))).foldl set_add n.dead_nodes }
    refine ⟨m1.trans g1, m2.trans g2, ?_, ?_, fun c hc => g5 c (m5 ▸ hc)⟩
    · rw [m3]
      exact goodList_foldl_set_add _ _ g3 hmiss
    · rw [m4]
      exact g4

theorem good_exit {id : Nat} {P : List Nat} (n : Node) (oks : List Bool)
    (hg : GoodNode id P n) :
    GoodNode id P (exit_critical_section n oks).1 := by
  have hg1 : GoodNode id P { n with state := NodeState.RELEASED } :=
    goodNode_congr hg rfl rfl rfl rfl rfl
  have hsend : GoodNode id P
      (send_to_each { n with state := NodeState.RELEASED }
        n.deferred_replies MessageType.REPLY oks).1 :=
    good_send_to_each _ _ _ _ hg1 (fun t ht => (hg.2.2.2.1 t ht).2)
  obtain ⟨s1, s2, s3, s4, s5⟩ := hsend
  exact ⟨s1, s2, s3, fun d hd => absurd hd (List.not_mem_nil d), s5⟩

theorem good_watchdog {id : Nat} {P : List Nat} (n : Node) (c : Nat)
    (oks : List Bool) (hid : id ∈ P) (hg : GoodNode id P n)
    (hc : n.coordinator_id = some c) (hcne : c ≠ id) :
    GoodNode id P (watchdog_fire n c oks).1 := by
  obtain ⟨g1, g2, g3, g4, g5⟩ := hg
  have hcP : c ∈ P := g5 c hc
  refine good_start_election _ oks hid ?_
  exact ⟨g1, g2, goodList_set_add g3 hcP hcne, g4, fun x hx => by simp at hx⟩

theorem good_heartbeat_broadcast {id : Nat} {P : List Nat} (n : Node)
    (oks : List Bool) (hg : GoodNode id P n) :
    GoodNode id P (heartbeat_broadcast n oks).1 := by
  refine good_send_to_each _ _ _ _ hg ?_
  intro t ht
  have h := (List.mem_filter.1 ht).2
  simp at h
  exact hg.1 ▸ h

theorem good_election_deadline_first {id : Nat} {P : List Nat} (n : Node)
    (oks : List Bool) (hid : id ∈ P) (hg : GoodNode id P n) :
    GoodNode id P (election_deadline_first n oks).1 := by
  unfold election_deadline_first
  split_ifs with h1 h2
  · exact hg
  · exact hg
  · exact good_become n oks hid hg

theorem good_election_deadline_second {id : Nat} {P : List Nat} (n : Node)
    (oks : List Bool) (hid : id ∈ P) (hg : GoodNode id P n) :
    GoodNode id P (election_deadline_second n oks).1 := by
  unfold election_deadline_second
  split_ifs with h1
  · exact good_start_election _ oks hid
      (goodNode_congr hg rfl rfl rfl rfl rfl)
  · exact hg

/-- Every step of the transition system preserves the invariant. -/
theorem good_step {id : Nat} {P : List Nat} {n m : Node} (hid : id ∈ P)
    (hg : GoodNode id P n) (hs : Step n m) : GoodNode id P m := by
  cases hs with
  | recv s ty t ok oks hsp hne =>
    exact good_recv_dispatch _ s ty t ok oks hid hg (hg.2.1 ▸ hsp)
      (fun h => hne (h.trans hg.1.symm))
  | reqBegin h1 h2 => exact goodNode_congr hg rfl rfl rfl rfl rfl
  | reqEnterDirect h1 h2 => exact goodNode_congr hg rfl rfl rfl rfl rfl
  | reqSends oks h1 h2 => exact good_request_cs_sends _ oks hg
  | reqWaitSuccess h1 h2 => exact goodNode_congr hg rfl rfl rfl rfl rfl
  | reqTimeout h1 h2 => exact good_request_cs_timeout_mark _ hg
  | reqTimeoutEnter h1 h2 => exact goodNode_congr hg rfl rfl rfl rfl rfl
  | reqTimeoutAbort h1 h2 => exact goodNode_congr hg rfl rfl rfl rfl rfl
  | reqExit oks h1 => exact good_exit _ oks hg
  | elect oks => exact good_start_election _ oks hid hg
  | electDeadline1 oks => exact good_election_deadline_first _ oks hid hg
  | electDeadline2 oks h => exact good_election_deadline_second _ oks hid hg
  | watchdog c oks hc hne =>
    exact good_watchdog _ c oks hid hg hc (fun h => hne (h.trans hg.1.symm))
  | hb oks hc => exact good_heartbeat_broadcast _ oks hg

/-- The invariant holds at every reachable state. -/
theorem good_reachable (id : Nat) (P : List Nat) (n : Node) (hid : id ∈ P)
    (hr : Reachable id P n) : GoodNode id P n := by
  induction hr with
  | refl =>
    exact ⟨rfl, rfl, by intro d hd; simp [initNode] at hd,
      by intro d hd; simp [initNode] at hd,
      by intro c hc; simp [initNode] at hc⟩
  | tail hsteps hstep ih => exact good_step hid ih hstep

/-- C6: in every reachable state of a node whose id is in its peer table,
dead_nodes only holds ids that are in the peer table and differ from the
node itself; each inserting site (the send failure path of send_message,
the watchdog marking of the current coordinator, the mutex timeout
marking) has been checked by the induction behind this theorem.  Inbound
frames are assumed to carry a sender drawn from the other peers, as the
cluster model prescribes. -/
theorem dead_nodes_subset_peers (id : Nat) (P : List Nat) (n : Node)
    (hid : id ∈ P) (hr : Reachable id P n) :
    GoodList id P n.dead_nodes :=
  (good_reachable id P n hid hr).2.2.1

/-- Closed instance of C6 at the freshly started node 1 of cluster
[1, 2]. -/
theorem dead_nodes_subset_peers_witness :
    GoodList 1 [1, 2] (initNode 1 [1, 2]).dead_nodes :=
  dead_nodes_subset_peers 1 [1, 2] (initNode 1 [1, 2]) (by decide)
    Relation.ReflTransGen.refl
